import Mathlib

/-!
Verification development for the FLAPIC-BIRD game (`src/main.py`).

The Python program is shallowly embedded below.  Numeric values that Python
stores as `float` are modelled by `ℚ` (every literal appearing in the program
is an exact binary fraction), Python `int` by `ℤ` (or `ℕ` for the
nonnegative score counters), byte strings by `List ℕ`, and decoded text by
`List Char`.  Every definition is translated from the source file; line
numbers in the doc comments refer to `src/main.py`.
-/

/-- The typed messages that `SerialReader.run` (lines 60-84) pushes into the
mailbox queue: `("BTN", None)`, `("BTN1", None)`, `("BTN2", None)`,
`("IR", v)`, `("ENC", v)`, `("ULTRA", v)`.  There is no further variant. -/
inductive Msg : Type where
  | BTN : Msg
  | BTN1 : Msg
  | BTN2 : Msg
  | IR : ℤ → Msg
  | ENC : ℤ → Msg
  | ULTRA : ℤ → Msg
deriving DecidableEq

/-- `s.strip()` on decoded text: drop whitespace from both ends. -/
def trimChars (s : List Char) : List Char :=
  ((s.dropWhile Char.isWhitespace).reverse.dropWhile Char.isWhitespace).reverse

/-- Does the character list start with the given pattern?  Models Python's
`line.startswith(pat)`. -/
def startsWithChars : List Char → List Char → Bool
  | _, [] => true
  | [], _ :: _ => false
  | c :: s, p :: ps => c = p && startsWithChars s ps

/-- Accumulate decimal digits; any non-digit character fails.  Helper for
`pyInt`. -/
def digitsToNat (ds : List Char) : Option ℕ :=
  ds.foldl
    (fun acc c => acc.bind (fun a => if c.isDigit then some (a * 10 + (c.toNat - 48)) else none))
    (some 0)

/-- Python's `int(s)` on the decoded payload (lines 69, 75, 81): optional
surrounding whitespace, an optional sign, then decimal digits; anything else
raises (modelled as `none`).  Exotic accepted forms (digit-group
underscores, non-ASCII digits) are outside the protocol alphabet and not
modelled. -/
def pyInt (s : List Char) : Option ℤ :=
  match trimChars s with
  | [] => none
  | '-' :: ds => if ds = [] then none else (digitsToNat ds).map (fun n => -(n : ℤ))
  | '+' :: ds => if ds = [] then none else (digitsToNat ds).map (fun n => (n : ℤ))
  | ds => (digitsToNat ds).map (fun n => (n : ℤ))

/-- The command classifier of `SerialReader.run` (lines 60-84), applied to a
stripped nonempty line.  The accepted commands are exactly `BTN`, `BTN1`,
`BTN2`, `IR:<int>`, `ENC:<int>`, `ULTRA:<int>`, `US:<int>`; every other
line falls off the `elif` chain and is dropped.  `line.split(":", 1)[1]`
equals dropping the matched `<tag>:` head, since the tag itself contains no
colon. -/
def parseLine (line : List Char) : Option Msg :=
  if line = "BTN".toList then some .BTN
  else if line = "BTN1".toList then some .BTN1
  else if line = "BTN2".toList then some .BTN2
  else if startsWithChars line "IR:".toList then (pyInt (line.drop 3)).map .IR
  else if startsWithChars line "ENC:".toList then (pyInt (line.drop 4)).map .ENC
  else if startsWithChars line "ULTRA:".toList then (pyInt (line.drop 6)).map .ULTRA
  else if startsWithChars line "US:".toList then (pyInt (line.drop 3)).map .ULTRA
  else none

/-- `raw.decode(errors='ignore')` (line 57) restricted to the protocol's
ASCII alphabet: bytes below 128 decode to themselves, other bytes are
dropped best-effort (multi-byte UTF-8 sequences never occur in the
protocol). -/
def decodeBytes (bs : List ℕ) : List Char :=
  bs.filterMap (fun b => if b < 128 then some (Char.ofNat b) else none)

/-- Lines 56-84 of `SerialReader.run`, per raw line: decode, strip, skip if
empty, else classify.  Returns the message pushed to the mailbox for this
line, if any. -/
def normLine (bs : List ℕ) : Option Msg :=
  let line := trimChars (decodeBytes bs)
  if line = [] then none else parseLine line

/-- One pass of the buffering logic of `SerialReader.run` (lines 48-56):
`buf += data; parts = buf.split(b'\n'); buf = parts[-1]` — emit every
complete line (`parts[:-1]`) and carry the trailing partial line.
`scanLines cur data` scans `data` with carried prefix `cur`; byte 10 is the
terminator. -/
def scanLines : List ℕ → List ℕ → List (List ℕ) × List ℕ
  | cur, [] => ([], cur)
  | cur, c :: rest =>
    if c = 10 then
      (cur :: (scanLines [] rest).1, (scanLines [] rest).2)
    else
      scanLines (cur ++ [c]) rest

/-- The reader loop over successive chunks returned by `self.ser.read(128)`
(lines 49-56): feed each chunk through the buffering logic, concatenating
the emitted complete lines; returns the emitted lines and the final
carry-over buffer. -/
def feedAll : List ℕ → List (List ℕ) → List (List ℕ) × List ℕ
  | buf, [] => ([], buf)
  | buf, c :: cs =>
    ((scanLines buf c).1 ++ (feedAll (scanLines buf c).2 cs).1,
     (feedAll (scanLines buf c).2 cs).2)

theorem scanLines_append (a : List ℕ) : ∀ (cur b : List ℕ),
    scanLines cur (a ++ b) =
      ((scanLines cur a).1 ++ (scanLines (scanLines cur a).2 b).1,
       (scanLines (scanLines cur a).2 b).2) := by
  induction a with
  | nil => intro cur b; simp [scanLines]
  | cons c a ih =>
    intro cur b
    by_cases hc : c = 10
    · simp [scanLines, hc, ih]
    · simp [scanLines, hc, ih]

theorem feedAll_join : ∀ (cs : List (List ℕ)) (buf : List ℕ),
    feedAll buf cs = scanLines buf cs.flatten := by
  intro cs
  induction cs with
  | nil => intro buf; simp [feedAll, scanLines]
  | cons c cs ih =>
    intro buf
    simp [feedAll, ih, scanLines_append]

theorem scanLines_length (data : List ℕ) : ∀ cur : List ℕ,
    (scanLines cur data).1.length = data.count 10 := by
  induction data with
  | nil => intro cur; simp [scanLines]
  | cons c rest ih =>
    intro cur
    by_cases hc : c = 10
    · simp [scanLines, hc, ih, List.count_cons]
    · simp [scanLines, hc, ih, List.count_cons]

theorem scanLines_reconstruct (data : List ℕ) : ∀ cur : List ℕ,
    ((scanLines cur data).1.map (fun l => l ++ [10])).flatten ++ (scanLines cur data).2 =
      cur ++ data := by
  induction data with
  | nil => intro cur; simp [scanLines]
  | cons c rest ih =>
    intro cur
    by_cases hc : c = 10
    · simp [scanLines, hc, ih]
    · simp only [scanLines, if_neg hc]
      rw [ih (cur ++ [c])]
      simp

/-- The three values of `self.state` (line 137): `'menu'`, `'play'`,
`'gameover'`. -/
inductive GState : Type where
  | menu : GState
  | play : GState
  | gameover : GState
deriving DecidableEq

/-- A pipe dictionary `{'x': ..., 'gap_y': ...}` (lines 323, 351); the
`'scored'` key is absent at creation and read through `p.get('scored')`
(line 372), which is falsy when missing — modelled by a `Bool` field that is
`false` at creation. -/
structure Pipe : Type where
  x : ℚ
  gap_y : ℚ
  scored : Bool
deriving DecidableEq

/-- The mutable state of `FlappyApp` relevant to the simulation core
(`__init__`, lines 136-165, and `reset_game_vars`, lines 201-209).
Rendering-only fields (image handles, canvas) and the wall-clock fields
`last_time`/`last_serial_send` are outside the embedded core. -/
structure App : Type where
  state : GState
  menu_selection : ℤ
  in_input_menu : Bool
  input_selection : ℤ
  input_device : ℤ
  score : ℕ
  best_score : ℕ
  ir_value : ℤ
  enc_value : ℤ
  ultra_value : ℤ
  bird_y : ℚ
  bird_vy : ℚ
  bird_angle : ℚ
  pipes : List Pipe
  pipe_timer : ℚ
  bg_scroll_x : ℚ
  test_mode : Bool
  game_over_time : Option ℚ
  game_start_time : Option ℚ
  has_played_once : Bool
  show_instructions : Bool
deriving DecidableEq

/-- The state established by `__init__` (lines 136-165) together with its
call to `reset_game_vars`: menu state, zero scores, simulated sensor values
`15`, bird at `HEIGHT / 2`, no pipes, test mode off. -/
def initApp : App :=
  { state := .menu
  , menu_selection := 0
  , in_input_menu := false
  , input_selection := 0
  , input_device := 0
  , score := 0
  , best_score := 0
  , ir_value := 15
  , enc_value := 15
  , ultra_value := 15
  , bird_y := 600 / 2
  , bird_vy := 0
  , bird_angle := 0
  , pipes := []
  , pipe_timer := 0
  , bg_scroll_x := 0
  , test_mode := false
  , game_over_time := none
  , game_start_time := none
  , has_played_once := false
  , show_instructions := false }

/-- `FlappyApp.reset_game_vars` (lines 201-209). -/
def reset_game_vars (a : App) : App :=
  { a with bird_y := 600 / 2, bird_vy := 0, pipes := [], pipe_timer := 0,
           score := 0, bg_scroll_x := 0, game_start_time := none, bird_angle := 0 }

/-- `FlappyApp.toggle_test_mode` (lines 236-238). -/
def toggle_test_mode (a : App) : App :=
  { a with test_mode := !a.test_mode }

/-- `FlappyApp.start_game` (lines 315-323): reset round state, enter play,
record the start time, clear the game-over timestamp, and spawn the three
initial pipes at `WIDTH + i * (PIPE_INTERVAL * PIPE_SPEED + 60)` with
`gap_y = HEIGHT * 0.5`.  `now` stands for the `time.time()` call. -/
def start_game (a : App) (now : ℚ) : App :=
  { reset_game_vars a with
      state := .play
    , has_played_once := true
    , game_start_time := some now
    , game_over_time := none
    , pipes :=
        [ { x := 400 + 0 * (1.5 * 140 + 60), gap_y := 600 * 0.5, scored := false }
        , { x := 400 + 1 * (1.5 * 140 + 60), gap_y := 600 * 0.5, scored := false }
        , { x := 400 + 2 * (1.5 * 140 + 60), gap_y := 600 * 0.5, scored := false } ] }

/-- `FlappyApp.key_up` (lines 241-258).  During play with an analog device
the matching simulated sensor value is decremented with a floor of `0` and
the handler returns; with the push button (or in game-over) the
`state != 'menu'` guard returns; in the menu it cycles the selection
(Python's `%` on negative operands agrees with `Int.emod`). -/
def key_up (a : App) : App :=
  if a.state = .play ∧ a.input_device = 1 then { a with ir_value := max 0 (a.ir_value - 1) }
  else if a.state = .play ∧ a.input_device = 2 then { a with enc_value := max 0 (a.enc_value - 1) }
  else if a.state = .play ∧ a.input_device = 3 then { a with ultra_value := max 0 (a.ultra_value - 1) }
  else if a.state ≠ .menu then a
  else if !a.in_input_menu then
    { a with menu_selection := (a.menu_selection - 1) % 3, show_instructions := false }
  else { a with input_selection := (a.input_selection - 1) % 4 }

/-- `FlappyApp.key_down` (lines 260-275), symmetric to `key_up` with a
ceiling of `30` on the sensor values (`len(INPUT_DEVICES) = 4`). -/
def key_down (a : App) : App :=
  if a.state = .play ∧ a.input_device = 1 then { a with ir_value := min 30 (a.ir_value + 1) }
  else if a.state = .play ∧ a.input_device = 2 then { a with enc_value := min 30 (a.enc_value + 1) }
  else if a.state = .play ∧ a.input_device = 3 then { a with ultra_value := min 30 (a.ultra_value + 1) }
  else if a.state ≠ .menu then a
  else if !a.in_input_menu then
    { a with menu_selection := (a.menu_selection + 1) % 3, show_instructions := false }
  else { a with input_selection := (a.input_selection + 1) % 4 }

/-- `FlappyApp.key_enter` (lines 277-290): ignored outside the menu; in the
top-level menu option 0 starts a game, option 1 opens the device submenu,
option 2 toggles the instructions overlay; in the submenu it commits the
highlighted device and closes the submenu. -/
def key_enter (a : App) (now : ℚ) : App :=
  if a.state ≠ .menu then a
  else if !a.in_input_menu then
    if a.menu_selection = 0 then start_game a now
    else if a.menu_selection = 1 then { a with in_input_menu := true }
    else if a.menu_selection = 2 then { a with show_instructions := !a.show_instructions }
    else a
  else { a with input_device := a.input_selection, in_input_menu := false }

/-- `FlappyApp.modify_sensor_value` (lines 292-301): Left/Right arrows nudge
the active analog sensor by `delta`, clamped into `[0, 30]`; inactive
outside play and in push-button mode. -/
def modify_sensor_value (a : App) (delta : ℤ) : App :=
  if a.state ≠ .play then a
  else if a.input_device = 1 then { a with ir_value := max 0 (min 30 (a.ir_value + delta)) }
  else if a.input_device = 2 then { a with enc_value := max 0 (min 30 (a.enc_value + delta)) }
  else if a.input_device = 3 then { a with ultra_value := max 0 (min 30 (a.ultra_value + delta)) }
  else a

/-- `FlappyApp.handle_button` (lines 304-313): in the menu it acts as Enter;
during play it applies the flap impulse `FLAP_VY = -320` and tilt `-20`
only in push-button mode; in game-over it returns to the menu. -/
def handle_button (a : App) (now : ℚ) : App :=
  match a.state with
  | .menu => key_enter a now
  | .play => if a.input_device = 0 then { a with bird_vy := -320, bird_angle := -20 } else a
  | .gameover => { a with state := .menu }

/-- The analog position ratio of `FlappyApp.update_physics` (lines 328-333):
`ir/30`, `enc/30` or `ultra/30` according to the selected device. -/
def pos_ratio (a : App) : ℚ :=
  if a.input_device = 1 then (a.ir_value : ℚ) / 30
  else if a.input_device = 2 then (a.enc_value : ℚ) / 30
  else (a.ultra_value : ℚ) / 30

/-- The bird-kinematics portion of `FlappyApp.update_physics`
(lines 325-343).  Analog devices (1, 2, 3) set
`bird_y = pos_ratio * (HEIGHT - 50)` directly and relax the tilt angle
toward `0` at rate `6/s`; push-button mode integrates gravity
(`GRAVITY = 900`) and relaxes the tilt toward a velocity-derived target
clamped to `[-25, 70]`.  Pipe translation/spawning (lines 346-351) draws a
random gap height and the background scroll (line 354) is presentational;
both are outside this function. -/
def update_physics_bird (a : App) (dt : ℚ) : App :=
  if a.input_device = 1 ∨ a.input_device = 2 ∨ a.input_device = 3 then
    { a with bird_y := pos_ratio a * (600 - 50)
           , bird_angle := a.bird_angle + (0 - a.bird_angle) * 6 * dt }
  else
    { a with bird_vy := a.bird_vy + 900 * dt
           , bird_y := a.bird_y + (a.bird_vy + 900 * dt) * dt
           , bird_angle := a.bird_angle +
               (max (-25) (min 70 ((a.bird_vy + 900 * dt) / 400 * 60)) - a.bird_angle) * 6 * dt }

/-- `bx1 = WIDTH * 0.25 - 10` (line 361): left edge of the bird's fixed
horizontal collision band. -/
def bx1 : ℚ := 400 * (25 / 100) - 10

/-- `bx2 = WIDTH * 0.25 + 10` (line 362): right edge of the bird's fixed
horizontal collision band. -/
def bx2 : ℚ := 400 * (25 / 100) + 10

/-- The `for p in self.pipes` body of `FlappyApp.check_collision`
(lines 363-374).  Per pipe, in source order: if the bird's band overlaps
the pipe's horizontal span (`not (bx2 < px1 or bx1 > px2)`) and the bird is
outside the gap, `return True` at once — pipes already latched stay
latched, later pipes are untouched; otherwise, if the pipe's trailing edge
has passed the band (`px2 < bx1`) and its latch is unset, set the latch and
increment the score.  Returns (collided, updated pipes, updated score);
`pw` is the pipe image width `self.pipe_img.width()`. -/
def collideLoop (pw birdY : ℚ) : List Pipe → ℕ → Bool × List Pipe × ℕ
  | [], score => (false, [], score)
  | p :: ps, score =>
    if ¬(bx2 < p.x ∨ bx1 > p.x + pw) ∧ (birdY < p.gap_y ∨ birdY > p.gap_y + 160) then
      (true, p :: ps, score)
    else if p.x + pw < bx1 ∧ p.scored = false then
      ((collideLoop pw birdY ps (score + 1)).1,
       { p with scored := true } :: (collideLoop pw birdY ps (score + 1)).2.1,
       (collideLoop pw birdY ps (score + 1)).2.2)
    else
      ((collideLoop pw birdY ps score).1,
       p :: (collideLoop pw birdY ps score).2.1,
       (collideLoop pw birdY ps score).2.2)

/-- `FlappyApp.check_collision` (lines 356-375): with `test_mode` set it
returns `False` immediately (before the bounds test, the pipe loop and the
scoring statements); otherwise the bird leaving the field
(`bird_y <= 0 or bird_y >= HEIGHT`) terminates the round, else the pipe
loop runs. -/
def check_collision (pw : ℚ) (testMode : Bool) (birdY : ℚ) (pipes : List Pipe) (score : ℕ) :
    Bool × List Pipe × ℕ :=
  if testMode then (false, pipes, score)
  else if birdY ≤ 0 ∨ birdY ≥ 600 then (true, pipes, score)
  else collideLoop pw birdY pipes score

/-- The `if collided:` branch of `FlappyApp.loop` (lines 502-506): raise
`best_score` to the current score if it exceeds it, enter `gameover`, and
record the game-over timestamp. -/
def onCollided (a : App) (now : ℚ) : App :=
  { (if a.score > a.best_score then { a with best_score := a.score } else a) with
      state := .gameover
    , game_over_time := some now }

/-- The `elif self.state == 'gameover':` branch of `FlappyApp.loop`
(lines 507-510): `if now - (self.game_over_time or now) > 3.0` return to
the menu.  Python's `or` falls back to `now` when the stored timestamp is
`None` or the falsy `0.0`. -/
def gameoverStep (a : App) (now : ℚ) : App :=
  if now - (match a.game_over_time with
            | some v => if v = 0 then now else v
            | none => now) > 3
  then { a with state := .menu }
  else a

/-- The play-branch collision handling of `FlappyApp.loop` (lines 500-506):
run `check_collision` (whose latch/score writes always land in the state)
and, when it reports a collision, the `onCollided` transition. -/
def applyCollision (pw : ℚ) (a : App) (now : ℚ) : App :=
  let r := check_collision pw a.test_mode a.bird_y a.pipes a.score
  if r.1 then onCollided { a with pipes := r.2.1, score := r.2.2 } now
  else { a with pipes := r.2.1, score := r.2.2 }

/-- The mailbox drain of `FlappyApp.loop` (lines 470-490), per message:
`BTN` runs `handle_button`, `BTN1`/`BTN2` reuse `key_up`/`key_down`, and
each sensor message stores `max(0, min(30, val))`.  `now` stands for the
wall clock passed down to `handle_button`'s menu path. -/
def processMsg (a : App) (now : ℚ) (m : Msg) : App :=
  match m with
  | .BTN => handle_button a now
  | .BTN1 => key_up a
  | .BTN2 => key_down a
  | .IR v => { a with ir_value := max 0 (min 30 v) }
  | .ENC v => { a with enc_value := max 0 (min 30 v) }
  | .ULTRA v => { a with ultra_value := max 0 (min 30 v) }

/-- The states reachable from `initApp` by the embedded operations: mailbox
messages, the key bindings (lines 186-195), and the per-tick state updates
of `FlappyApp.loop`. -/
inductive Reachable : App → Prop where
  | init : Reachable initApp
  | msg : ∀ {a : App} (now : ℚ) (m : Msg), Reachable a → Reachable (processMsg a now m)
  | up : ∀ {a : App}, Reachable a → Reachable (key_up a)
  | down : ∀ {a : App}, Reachable a → Reachable (key_down a)
  | enter : ∀ {a : App} (now : ℚ), Reachable a → Reachable (key_enter a now)
  | nudge : ∀ {a : App} (d : ℤ), Reachable a → Reachable (modify_sensor_value a d)
  | toggle : ∀ {a : App}, Reachable a → Reachable (toggle_test_mode a)
  | physics : ∀ {a : App} (dt : ℚ), Reachable a → Reachable (update_physics_bird a dt)
  | collide : ∀ {a : App} (pw now : ℚ), Reachable a → Reachable (applyCollision pw a now)
  | gotick : ∀ {a : App} (now : ℚ), Reachable a → Reachable (gameoverStep a now)

/-- All three stored sensor values lie in `[0, 30]`. -/
def sensorInv (a : App) : Prop :=
  0 ≤ a.ir_value ∧ a.ir_value ≤ 30 ∧
  0 ≤ a.enc_value ∧ a.enc_value ≤ 30 ∧
  0 ≤ a.ultra_value ∧ a.ultra_value ≤ 30

theorem sensorInv_key_up {a : App} (h : sensorInv a) : sensorInv (key_up a) := by
  unfold sensorInv key_up at *
  split_ifs <;> simp_all <;> omega

theorem sensorInv_key_down {a : App} (h : sensorInv a) : sensorInv (key_down a) := by
  unfold sensorInv key_down at *
  split_ifs <;> simp_all <;> omega

theorem sensorInv_start_game {a : App} (now : ℚ) (h : sensorInv a) :
    sensorInv (start_game a now) := by
  unfold sensorInv start_game reset_game_vars at *
  simpa using h

theorem sensorInv_key_enter {a : App} (now : ℚ) (h : sensorInv a) :
    sensorInv (key_enter a now) := by
  unfold key_enter
  split_ifs with h1 h2 h3 h4 h5
  · exact h
  · exact sensorInv_start_game now h
  · simpa [sensorInv] using h
  · simpa [sensorInv] using h
  · exact h
  · simpa [sensorInv] using h

theorem sensorInv_handle_button {a : App} (now : ℚ) (h : sensorInv a) :
    sensorInv (handle_button a now) := by
  unfold handle_button
  cases hs : a.state
  · exact sensorInv_key_enter now h
  · split_ifs
    · simpa [sensorInv] using h
    · exact h
  · simpa [sensorInv] using h

theorem sensorInv_modify {a : App} (d : ℤ) (h : sensorInv a) :
    sensorInv (modify_sensor_value a d) := by
  unfold sensorInv modify_sensor_value at *
  split_ifs <;> simp_all

theorem sensorInv_processMsg {a : App} (now : ℚ) (m : Msg) (h : sensorInv a) :
    sensorInv (processMsg a now m) := by
  cases m with
  | BTN => exact sensorInv_handle_button now h
  | BTN1 => exact sensorInv_key_up h
  | BTN2 => exact sensorInv_key_down h
  | IR v => unfold sensorInv processMsg at *; simp_all
  | ENC v => unfold sensorInv processMsg at *; simp_all
  | ULTRA v => unfold sensorInv processMsg at *; simp_all

theorem sensorInv_physics {a : App} (dt : ℚ) (h : sensorInv a) :
    sensorInv (update_physics_bird a dt) := by
  unfold sensorInv update_physics_bird at *
  split_ifs <;> simpa using h

theorem sensorInv_onCollided {a : App} (now : ℚ) (h : sensorInv a) :
    sensorInv (onCollided a now) := by
  unfold sensorInv onCollided at *
  split_ifs <;> simpa using h

theorem sensorInv_applyCollision {a : App} (pw now : ℚ) (h : sensorInv a) :
    sensorInv (applyCollision pw a now) := by
  simp only [applyCollision]
  split_ifs with h1
  · exact sensorInv_onCollided now (by simpa [sensorInv] using h)
  · simpa [sensorInv] using h

theorem sensorInv_gameoverStep {a : App} (now : ℚ) (h : sensorInv a) :
    sensorInv (gameoverStep a now) := by
  unfold sensorInv gameoverStep at *
  split_ifs <;> simpa using h

theorem sensorInv_toggle {a : App} (h : sensorInv a) : sensorInv (toggle_test_mode a) := by
  unfold sensorInv toggle_test_mode at *
  simpa using h

theorem best_score_key_up (a : App) : (key_up a).best_score = a.best_score := by
  unfold key_up; split_ifs <;> rfl

theorem best_score_key_down (a : App) : (key_down a).best_score = a.best_score := by
  unfold key_down; split_ifs <;> rfl

theorem best_score_key_enter (a : App) (now : ℚ) :
    (key_enter a now).best_score = a.best_score := by
  unfold key_enter start_game reset_game_vars; split_ifs <;> rfl

theorem best_score_handle_button (a : App) (now : ℚ) :
    (handle_button a now).best_score = a.best_score := by
  unfold handle_button
  cases a.state
  · exact best_score_key_enter a now
  · split_ifs <;> rfl
  · rfl

/-- The number of pipes whose trailing edge has passed the bird's band and
whose latch is unset: exactly the pipes line 372-374 scores. -/
def passedUnscored (pw : ℚ) (ps : List Pipe) : ℕ :=
  (ps.filter (fun p => decide (p.x + pw < bx1) && !p.scored)).length

theorem collideLoop_idem (pw y : ℚ) : ∀ (ps : List Pipe) (s : ℕ),
    collideLoop pw y (collideLoop pw y ps s).2.1 (collideLoop pw y ps s).2.2 =
      collideLoop pw y ps s := by
  intro ps
  induction ps with
  | nil => intro s; rfl
  | cons p ps ih =>
    intro s
    by_cases h1 : ¬(bx2 < p.x ∨ bx1 > p.x + pw) ∧ (y < p.gap_y ∨ y > p.gap_y + 160)
    · simp only [collideLoop, if_pos h1]
    · by_cases h2 : p.x + pw < bx1 ∧ p.scored = false
      · have h2' : ¬(p.x + pw < bx1 ∧ (true : Bool) = false) := by simp
        simp only [collideLoop, if_neg h1, if_pos h2, if_neg h2']
        rw [ih (s + 1)]
      · simp only [collideLoop, if_neg h1, if_neg h2]
        rw [ih s]

theorem collideLoop_score_count (pw y : ℚ) : ∀ (ps : List Pipe) (s : ℕ),
    (collideLoop pw y ps s).1 = false →
    (collideLoop pw y ps s).2.2 = s + passedUnscored pw ps := by
  intro ps
  induction ps with
  | nil => intro s _; simp [collideLoop, passedUnscored]
  | cons p ps ih =>
    intro s hf
    by_cases h1 : ¬(bx2 < p.x ∨ bx1 > p.x + pw) ∧ (y < p.gap_y ∨ y > p.gap_y + 160)
    · simp only [collideLoop, if_pos h1] at hf
      exact Bool.noConfusion hf
    · by_cases h2 : p.x + pw < bx1 ∧ p.scored = false
      · have hf' : (collideLoop pw y ps (s + 1)).1 = false := by
          simpa only [collideLoop, if_neg h1, if_pos h2] using hf
        have hfilter : (decide (p.x + pw < bx1) && !p.scored) = true := by
          simp [h2.1, h2.2]
        simp only [collideLoop, if_neg h1, if_pos h2]
        rw [ih (s + 1) hf']
        simp [passedUnscored, List.filter_cons, hfilter]
        omega
      · have hf' : (collideLoop pw y ps s).1 = false := by
          simpa only [collideLoop, if_neg h1, if_neg h2] using hf
        have hfilter : (decide (p.x + pw < bx1) && !p.scored) = false := by
          rcases not_and_or.mp h2 with h | h
          · simp [h]
          · have h' : p.scored = true := by revert h; cases p.scored <;> simp
            simp [h']
        simp only [collideLoop, if_neg h1, if_neg h2]
        rw [ih s hf']
        simp [passedUnscored, List.filter_cons, hfilter]

/-- C9: the Transport Line Decoder is chunk-invariant — for every inbound
byte sequence and every two ways of splitting it into successive read
chunks, the emitted line sequence (hence the decoded event sequence pushed
to the mailbox) is identical; moreover exactly one line is emitted per
newline terminator observed, and no byte is lost (the emitted lines plus
the retained carry-over reconstruct the whole input). -/
theorem decoder_chunk_invariant (cs1 cs2 : List (List ℕ)) (h : cs1.flatten = cs2.flatten) :
    feedAll [] cs1 = feedAll [] cs2 ∧
    (feedAll [] cs1).1.filterMap normLine = (feedAll [] cs2).1.filterMap normLine ∧
    (feedAll [] cs1).1.length = cs1.flatten.count 10 ∧
    ((feedAll [] cs1).1.map (fun l => l ++ [10])).flatten ++ (feedAll [] cs1).2 =
      cs1.flatten := by
  have e1 := feedAll_join cs1 []
  have e2 := feedAll_join cs2 []
  refine ⟨?_, ?_, ?_, ?_⟩
  · rw [e1, e2, h]
  · rw [e1, e2, h]
  · rw [e1, scanLines_length]
  · rw [e1]
    simpa using scanLines_reconstruct cs1.flatten []

/-- The byte stream `IR:12\nBTN\nX` delivered as a single chunk. -/
def csA : List (List ℕ) := [[73, 82, 58, 49, 50, 10, 66, 84, 78, 10, 88]]

/-- The same byte stream delivered in four chunks (one of them empty),
splitting both lines across read boundaries. -/
def csB : List (List ℕ) := [[73, 82], [58, 49, 50, 10, 66], [], [84, 78, 10, 88]]

theorem decoder_chunk_invariant_witness :
    feedAll [] csA = feedAll [] csB ∧
    (feedAll [] csA).1.filterMap normLine = (feedAll [] csB).1.filterMap normLine ∧
    (feedAll [] csA).1.length = csA.flatten.count 10 ∧
    ((feedAll [] csA).1.map (fun l => l ++ [10])).flatten ++ (feedAll [] csA).2 =
      csA.flatten :=
  decoder_chunk_invariant csA csB (by decide)

/-- C2 counterexample: a decoded line `MAX:5` matches no branch of the
normalizer's `elif` chain (there is no `MAX` token and no best-score
override event in the `Msg` vocabulary at all), so it produces no mailbox
event — contradicting the claim that it yields a `BestScoreOverride`
event. -/
theorem max_line_discarded_cex :
    normLine [77, 65, 88, 58, 53] = none ∧ parseLine "MAX:5".toList = none := by
  decide

/-- C2 amended: lines of the form `MAX:<int>` are silently discarded by the
normalizer (no event is produced for them), and no mailbox event whatsoever
changes `best_score` in any state — the wire protocol cannot override the
best score. -/
theorem mailbox_events_preserve_best_score (a : App) (now : ℚ) (m : Msg) :
    (processMsg a now m).best_score = a.best_score := by
  cases m with
  | BTN => exact best_score_handle_button a now
  | BTN1 => exact best_score_key_up a
  | BTN2 => exact best_score_key_down a
  | IR v => rfl
  | ENC v => rfl
  | ULTRA v => rfl

/-- C10: every operation that writes a stored sensor value clamps or keeps
it inside `[0, 30]`, so in every reachable state the three stored sensor
values lie in `[0, 30]`, whatever raw value arrived on the wire. -/
theorem sensor_values_in_range {a : App} (h : Reachable a) : sensorInv a := by
  induction h with
  | init => exact ⟨by decide, by decide, by decide, by decide, by decide, by decide⟩
  | msg now m _ ih => exact sensorInv_processMsg now m ih
  | up _ ih => exact sensorInv_key_up ih
  | down _ ih => exact sensorInv_key_down ih
  | enter now _ ih => exact sensorInv_key_enter now ih
  | nudge d _ ih => exact sensorInv_modify d ih
  | toggle _ ih => exact sensorInv_toggle ih
  | physics dt _ ih => exact sensorInv_physics dt ih
  | collide pw now _ ih => exact sensorInv_applyCollision pw now ih
  | gotick now _ ih => exact sensorInv_gameoverStep now ih

theorem sensor_values_in_range_witness : sensorInv initApp :=
  sensor_values_in_range Reachable.init

/-- C1 counterexample: a world state with one unlatched pipe whose trailing
edge (x + width = 60) has passed the bird's band (bx1 = 90).  With
`test_mode = false` the detector increments the score to 1; with
`test_mode = true` it returns immediately and the score stays 0 — the
score increments are NOT independent of `test_mode`. -/
theorem test_mode_blocks_scoring_cex :
    (check_collision 60 false 300 [⟨0, 220, false⟩] 0).2.2 = 1 ∧
    (check_collision 60 true 300 [⟨0, 220, false⟩] 0).2.2 = 0 := by
  constructor
  · norm_num [check_collision, collideLoop, bx1, bx2]
  · rfl

/-- C1 amended: with `test_mode = true` the detector returns `False`
immediately, leaving pipes and score untouched (no scoring in test mode);
with `test_mode = false`, whenever no collision terminates the scan, the
score is incremented by exactly one for each pipe whose trailing edge has
passed the bird's horizontal band and whose `scored` latch is unset. -/
theorem scoring_gated_by_test_mode (pw y : ℚ) (ps : List Pipe) (s : ℕ)
    (hf : (check_collision pw false y ps s).1 = false) :
    check_collision pw true y ps s = (false, ps, s) ∧
    (check_collision pw false y ps s).2.2 = s + passedUnscored pw ps := by
  have h0 : check_collision pw false y ps s =
      if y ≤ 0 ∨ y ≥ 600 then (true, ps, s) else collideLoop pw y ps s := by
    simp [check_collision]
  refine ⟨rfl, ?_⟩
  by_cases hb : y ≤ 0 ∨ y ≥ 600
  · rw [h0, if_pos hb] at hf
    exact Bool.noConfusion hf
  · rw [h0, if_neg hb] at hf ⊢
    exact collideLoop_score_count pw y ps s hf

theorem scoring_gated_by_test_mode_witness :
    check_collision 60 true 300 [⟨0, 220, false⟩] 0 = (false, [⟨0, 220, false⟩], 0) ∧
    (check_collision 60 false 300 [⟨0, 220, false⟩] 0).2.2 =
      0 + passedUnscored 60 [⟨0, 220, false⟩] :=
  scoring_gated_by_test_mode 60 300 [⟨0, 220, false⟩] 0
    (by norm_num [check_collision, collideLoop, bx1, bx2])

/-- C7: the scored latch is one-way — running the detector again on the
world state produced by a previous run (same bird, same pipe positions,
latches already set) returns the very same result: no pipe is re-scored
and the score is unchanged. -/
theorem scoring_latch_idempotent (pw : ℚ) (tm : Bool) (y : ℚ) (ps : List Pipe) (s : ℕ) :
    check_collision pw tm y (check_collision pw tm y ps s).2.1
        (check_collision pw tm y ps s).2.2 =
      check_collision pw tm y ps s := by
  cases tm with
  | true => rfl
  | false =>
    by_cases hb : y ≤ 0 ∨ y ≥ 600
    · have h0 : check_collision pw false y ps s = (true, ps, s) := by
        simp [check_collision, hb]
      rw [h0]
      simp [check_collision, hb]
    · have h0 : ∀ (l : List Pipe) (n : ℕ),
          check_collision pw false y l n = collideLoop pw y l n := by
        intro l n
        simp [check_collision, hb]
      rw [h0, h0]
      exact collideLoop_idem pw y ps s

/-- C8: the collided branch of the loop sets
`best_score = max(best_score, score)`, records the game-over timestamp,
enters `gameover`, and leaves the score unchanged — so `best_score ≥ score`
holds immediately after the Play → GameOver transition. -/
theorem play_to_gameover_updates_best (a : App) (now : ℚ) :
    (onCollided a now).best_score = max a.best_score a.score ∧
    (onCollided a now).score = a.score ∧
    (onCollided a now).state = GState.gameover ∧
    (onCollided a now).game_over_time = some now ∧
    (onCollided a now).score ≤ (onCollided a now).best_score := by
  unfold onCollided
  split_ifs with h <;> refine ⟨?_, rfl, rfl, rfl, ?_⟩ <;> simp <;> omega

/-- A play state with the Digital Encoder selected, fresh from the menu. -/
def a3 : App := { initApp with state := .play, input_device := 2 }

/-- C3 counterexample: there is no `enc_center` in the code — the very
first raw encoder reading `20` of a round yields the ratio
`20 / 30 = 2 / 3`, not the claimed `(clamp(20 − 20) + 15) / 30 = 15 / 30`. -/
theorem encoder_recenter_cex :
    pos_ratio (processMsg a3 0 (.ENC 20)) = 2 / 3 ∧ ((2 : ℚ) / 3) ≠ 15 / 30 := by
  constructor
  · have h : (max 0 (min 30 (20 : ℤ))) = 20 := by decide
    simp [pos_ratio, processMsg, a3, initApp, h]
    norm_num
  · norm_num

/-- C3 amended: with the Encoder device selected the control ratio is
simply `enc / 30` for the stored (clamped) encoder value — no recentering
is performed; the raw reading sequence `[20, 22, 18]` therefore yields the
successive ratios `2/3`, `11/15`, `3/5`. -/
theorem encoder_ratio_direct :
    (∀ a : App, pos_ratio { a with input_device := 2 } = (a.enc_value : ℚ) / 30) ∧
    pos_ratio (processMsg a3 0 (.ENC 20)) = 2 / 3 ∧
    pos_ratio (processMsg (processMsg a3 0 (.ENC 20)) 0 (.ENC 22)) = 11 / 15 ∧
    pos_ratio (processMsg (processMsg (processMsg a3 0 (.ENC 20)) 0 (.ENC 22)) 0
        (.ENC 18)) = 3 / 5 := by
  have h20 : (max 0 (min 30 (20 : ℤ))) = 20 := by decide
  have h22 : (max 0 (min 30 (22 : ℤ))) = 22 := by decide
  have h18 : (max 0 (min 30 (18 : ℤ))) = 18 := by decide
  refine ⟨fun a => ?_, ?_, ?_, ?_⟩
  · simp [pos_ratio]
  · simp [pos_ratio, processMsg, a3, initApp, h20]; norm_num
  · simp [pos_ratio, processMsg, a3, initApp, h22]; norm_num
  · simp [pos_ratio, processMsg, a3, initApp, h18]; norm_num

/-- Modelled from the spec: the §4.3 ultrasound mapping
`ratio = 1 − ultra / 50` (near object ⇒ high position), stated only for
comparison with the implemented `pos_ratio`. -/
def ultraRatioSpec (ultra : ℤ) : ℚ := 1 - (ultra : ℚ) / 50

/-- A play state with the Ultrasound device selected and stored reading 0. -/
def a4 : App := { initApp with state := .play, input_device := 3, ultra_value := 0 }

/-- C4 counterexample: for the stored ultrasound reading `0` the code's
ratio is `0 / 30 = 0` while the claimed mapping `1 − ultra / 50` gives `1`
— the implemented ratio is not `1 − ultra / 50`, and a near object yields
a LOW position value, not a high one. -/
theorem ultra_ratio_cex :
    pos_ratio a4 = 0 ∧ ultraRatioSpec a4.ultra_value = 1 ∧
    pos_ratio a4 ≠ ultraRatioSpec a4.ultra_value := by
  refine ⟨?_, ?_, ?_⟩
  · simp [pos_ratio, a4, initApp]
  · simp [ultraRatioSpec, a4, initApp]
  · simp [pos_ratio, ultraRatioSpec, a4, initApp]

/-- C4 amended: with the Ultrasound device selected the control ratio is
`ultra / 30` for the stored (clamped) reading — larger readings give larger
ratios — and a physics tick puts the bird at exactly
`(ultra / 30) × (HEIGHT − 50)`. -/
theorem ultra_ratio_direct (a : App) (dt : ℚ) :
    pos_ratio { a with input_device := 3 } = (a.ultra_value : ℚ) / 30 ∧
    (update_physics_bird { a with input_device := 3 } dt).bird_y =
      (a.ultra_value : ℚ) / 30 * (600 - 50) := by
  constructor
  · simp [pos_ratio]
  · simp [update_physics_bird, pos_ratio]

/-- A play state with the Infrared device selected, stored reading 0, and
the bird at mid-field height 300. -/
def a5 : App := { initApp with state := .play, input_device := 1, ir_value := 0, bird_y := 300 }

/-- C5 counterexample: with infrared reading 0 the target position is 0;
after one tick with dt = 1/100 > 0 the bird's y is exactly 0 — it jumps to
the target instead of landing strictly between its previous y (300) and
the target, so there is no exponential smoothing of the position. -/
theorem analog_no_smoothing_cex :
    (0 : ℚ) < 1 / 100 ∧
    a5.bird_y = 300 ∧
    (update_physics_bird a5 (1 / 100)).bird_y = 0 ∧
    ¬(0 < (update_physics_bird a5 (1 / 100)).bird_y ∧
        (update_physics_bird a5 (1 / 100)).bird_y < 300) := by
  refine ⟨by norm_num, rfl, ?_, ?_⟩
  · simp [update_physics_bird, pos_ratio, a5, initApp]
  · simp [update_physics_bird, pos_ratio, a5, initApp]

/-- C5 amended: in every analog input mode (Infrared, Encoder, Ultrasound)
a physics tick assigns the bird's y instantaneously to
`ratio × (HEIGHT − 50)`, for every dt — there is no first-order lag on the
position (only the tilt angle is smoothed, at rate 6/s). -/
theorem analog_instant_jump (a : App) (dt : ℚ) :
    (update_physics_bird { a with input_device := 1 } dt).bird_y =
      pos_ratio { a with input_device := 1 } * (600 - 50) ∧
    (update_physics_bird { a with input_device := 2 } dt).bird_y =
      pos_ratio { a with input_device := 2 } * (600 - 50) ∧
    (update_physics_bird { a with input_device := 3 } dt).bird_y =
      pos_ratio { a with input_device := 3 } * (600 - 50) := by
  refine ⟨?_, ?_, ?_⟩ <;> simp [update_physics_bird]

/-- A game-over state with timestamp 1. -/
def a6 : App := { initApp with state := .gameover, game_over_time := some 1 }

/-- C6 counterexample: in the game-over state a `MenuConfirm` (Enter) event
is ignored — `key_enter` returns the state unchanged, still in game-over —
so the session does NOT return to the menu immediately upon `MenuConfirm`. -/
theorem menu_confirm_ignored_in_gameover_cex :
    a6.state = GState.gameover ∧ key_enter a6 5 = a6 ∧
    (key_enter a6 5).state ≠ GState.menu := by
  exact ⟨rfl, rfl, by decide⟩

/-- C6 amended: in game-over, a `ButtonPress` returns the session to the
menu immediately — at every instant, in particular during the 3-second
dwell — and a `MenuConfirm` (Enter) event is ignored, whatever the timer
state; additionally, once more than 3 seconds have elapsed since a nonzero
game-over timestamp, the tick returns to the menu automatically. -/
theorem gameover_exit_paths (a : App) (now t : ℚ) (h : a.state = GState.gameover) :
    (handle_button a now).state = GState.menu ∧
    key_enter a now = a ∧
    (a.game_over_time = some t ∧ t ≠ 0 ∧ now - t > 3 →
      (gameoverStep a now).state = GState.menu) := by
  refine ⟨?_, ?_, ?_⟩
  · simp [handle_button, h]
  · simp [key_enter, h]
  · rintro ⟨h2, h3, h4⟩
    simp [gameoverStep, h2, h3, h4]

theorem gameover_exit_paths_witness :
    ((handle_button a6 2).state = GState.menu ∧
     key_enter a6 2 = a6 ∧
     (a6.game_over_time = some 1 ∧ (1 : ℚ) ≠ 0 ∧ (2 : ℚ) - 1 > 3 →
       (gameoverStep a6 2).state = GState.menu)) ∧
    (gameoverStep a6 5).state = GState.menu :=
  ⟨gameover_exit_paths a6 2 1 rfl,
   (gameover_exit_paths a6 5 1 rfl).2.2 ⟨rfl, by norm_num, by norm_num⟩⟩
